import Mathlib

/-!
Verification of `crates/proto/src/native_tls/tls_client_stream.rs` from
hickory-dns: the `TlsClientStreamBuilder` transport-builder core.

Shallow embedding conventions:
* A one-shot future is embedded as a function from an I/O environment
  (the external connect mechanism and handshake engine) to the pair of
  the I/O events it emits while driven and its single resolution value.
* External collaborators that live in the repository outside the file
  under analysis (`TlsStreamBuilder`, `TcpClientStream`, `ProtoError`,
  `BufDnsStreamHandle`, the io-compat adapters) are modelled from the
  specification, as marked on each definition.
-/

namespace HickoryTls

/-- An IP socket address (IP plus port), kept abstract as two numbers. -/
structure SocketAddr where
  ip : Nat
  port : Nat
deriving DecidableEq, Repr

/-- A certificate used as a caller-supplied trust anchor, kept abstract. -/
structure Certificate where
  der : List Nat
deriving DecidableEq, Repr

/-- The failure kinds of the raw connect/handshake steps (spec section 7). -/
inductive IoErrorKind where
  | connectFailure
  | handshakeFailure
  | identityMismatch
deriving DecidableEq, Repr

/-- A raw `std::io::Error` as produced by the connect or handshake step. -/
structure IoError where
  kind : IoErrorKind
  code : Nat
deriving DecidableEq, Repr

/-- Modelled from the spec: the unified error type (`ProtoError`, defined in
`crates/proto/src/error.rs`, not under src/); a lossless wrapper that
preserves the originating raw failure as an inspectable cause. -/
inductive ProtoError where
  | io : IoError → ProtoError
deriving DecidableEq, Repr

/-- The `From<io::Error>` conversion into the unified error type. -/
def ProtoError.from_io (e : IoError) : ProtoError :=
  ProtoError.io e

/-- The inspectable cause preserved inside the unified error. -/
def ProtoError.cause : ProtoError → IoError
  | ProtoError.io e => e

/-- Modelled from the spec: the io-compat adapter `AsyncIoStdAsTokio`
(pure pass-through plumbing, `crates/proto/src/runtime/iocompat.rs`,
not under src/). -/
structure AsyncIoStdAsTokio (S : Type) where
  inner : S
deriving DecidableEq, Repr

/-- Modelled from the spec: the io-compat adapter `AsyncIoTokioAsStd`
(pure pass-through plumbing, not under src/). -/
structure AsyncIoTokioAsStd (S : Type) where
  inner : S
deriving DecidableEq, Repr

/-- Modelled from the spec: the raw secured stream produced by the external
secure-channel engine (`tokio_native_tls::TlsStream`). -/
structure TokioTlsStream (S : Type) where
  inner : S
deriving DecidableEq, Repr

/-- Modelled from the spec: the underlying stream of the generic protocol
client-stream wrapper (`crates/proto/src/tcp`, not under src/); it carries
the remote-address metadata needed by the protocol layer. -/
structure TcpStream (S : Type) where
  io_stream : S
  peer_addr : SocketAddr
deriving DecidableEq, Repr

/-- Modelled from the spec: the generic protocol client stream
(`TcpClientStream`, `crates/proto/src/tcp/tcp_client_stream.rs`, not under
src/); wraps the framed stream. -/
structure TcpClientStream (S : Type) where
  tcp_stream : TcpStream S
deriving DecidableEq, Repr

/-- Modelled from the spec: `TcpClientStream::from_stream` wraps a raw
bidirectional stream as a protocol client stream, preserving the
addressing metadata already associated with it. -/
def TcpClientStream.from_stream {S : Type} (stream : TcpStream S) : TcpClientStream S :=
  ⟨stream⟩

/-- Modelled from the spec: the Outbound Handle (`BufDnsStreamHandle`,
`crates/proto/src/xfer`, not under src/): a non-blocking enqueue point for
messages destined for the eventual transport, associated with the remote
address of the attempt that created it. -/
structure BufDnsStreamHandle where
  remote_addr : SocketAddr
deriving DecidableEq, Repr

/-- Modelled from the spec: creation of a fresh Outbound Handle for one
establishment attempt. -/
def BufDnsStreamHandle.new (remote_addr : SocketAddr) : BufDnsStreamHandle :=
  ⟨remote_addr⟩

/-- The raw secured stream type yielded by the inner stream future: the
secure-channel stream re-wrapped through the io-compat adapters and
carrying remote-address metadata. -/
abbrev SecuredStream (Tcp : Type) : Type :=
  TcpStream (AsyncIoTokioAsStd (TokioTlsStream (AsyncIoStdAsTokio Tcp)))

/-- `TlsClientStream<S>`: the protocol-level client stream over the secured
stream (the `pub type` alias at the top of the file under analysis). -/
abbrev TlsClientStream (Tcp : Type) : Type :=
  TcpClientStream (AsyncIoTokioAsStd (TokioTlsStream (AsyncIoStdAsTokio Tcp)))

/-- Network I/O events, used to make the points where the establishment
attempt touches the network observable in the embedding. -/
inductive IoEvent where
  | connect (remote : SocketAddr) (bind : Option SocketAddr)
  | handshake (dns_name : String)
deriving DecidableEq, Repr

/-- Whether an event is a raw connect attempt. -/
def IoEvent.isConnect : IoEvent → Bool
  | IoEvent.connect _ _ => true
  | IoEvent.handshake _ => false

/-- Whether an event is a handshake attempt. -/
def IoEvent.isHandshake : IoEvent → Bool
  | IoEvent.connect _ _ => false
  | IoEvent.handshake _ => true

/-- The external I/O environment: the outcome of the raw byte-stream
connect mechanism and of the secure-channel handshake engine.  A future is
driven against one such environment. -/
structure Env (Tcp : Type) where
  tcpConnect : SocketAddr → Option SocketAddr → Except IoError Tcp
  tlsHandshake : List Certificate → String → Tcp →
    Except IoError (TokioTlsStream (AsyncIoStdAsTokio Tcp))

/-- A one-shot future embedded by its behaviour when driven: the I/O events
it emits and its single resolution. -/
abbrev PFuture (Tcp ε α : Type) : Type :=
  Env Tcp → List IoEvent × Except ε α

/-- `TryFutureExt::map_ok`: transform the success value of a future,
leaving errors and emitted I/O events unchanged. -/
def mapOk {Tcp ε α β : Type} (f : α → β) (fut : PFuture Tcp ε α) : PFuture Tcp ε β :=
  fun env =>
    let r := fut env
    (r.fst, Except.map f r.snd)

/-- `TryFutureExt::map_err`: transform the error value of a future, leaving
successes and emitted I/O events unchanged. -/
def mapErr {Tcp ε ε2 α : Type} (f : ε → ε2) (fut : PFuture Tcp ε α) : PFuture Tcp ε2 α :=
  fun env =>
    let r := fut env
    (r.fst, Except.mapError f r.snd)

/-- Modelled from the spec: the connection-capability object
(`RuntimeProvider`, `crates/proto/src/runtime`, not under src/), injected
into the builder; opaque beyond its identity, its connect behaviour is part
of the environment. -/
structure RuntimeProvider (Tcp : Type) where
  id : Nat
deriving DecidableEq, Repr

/-- Modelled from the spec: the provider opens a byte-stream connection to
the remote address, optionally from a bound local address, yielding a raw
stream or an I/O failure; the attempt emits one connect event when driven. -/
def RuntimeProvider.connect {Tcp : Type} (_p : RuntimeProvider Tcp)
    (remote : SocketAddr) (bind : Option SocketAddr) : PFuture Tcp IoError Tcp :=
  fun env => ([IoEvent.connect remote bind], env.tcpConnect remote bind)

/-- Modelled from the spec: the Secure Connection Initiator
(`TlsStreamBuilder`, `crates/proto/src/native_tls/tls_stream.rs`, not under
src/): owns the trust configuration (trust anchors and optional local bind
address) together with the injected provider. -/
structure TlsStreamBuilder (Tcp : Type) where
  provider : RuntimeProvider Tcp
  ca_chain : List Certificate
  bind_address : Option SocketAddr
deriving DecidableEq, Repr

/-- Modelled from the spec: `TlsStreamBuilder::new` binds the provider with
an empty trust configuration. -/
def TlsStreamBuilder.new {Tcp : Type} (provider : RuntimeProvider Tcp) :
    TlsStreamBuilder Tcp :=
  ⟨provider, [], none⟩

/-- Modelled from the spec: `TlsStreamBuilder::add_ca` appends a trust
anchor. -/
def TlsStreamBuilder.add_ca {Tcp : Type} (b : TlsStreamBuilder Tcp)
    (ca : Certificate) : TlsStreamBuilder Tcp :=
  { b with ca_chain := b.ca_chain ++ [ca] }

/-- Modelled from the spec: `TlsStreamBuilder::bind_addr` records the local
address to originate the connection from. -/
def TlsStreamBuilder.bind_addr {Tcp : Type} (b : TlsStreamBuilder Tcp)
    (a : SocketAddr) : TlsStreamBuilder Tcp :=
  { b with bind_address := some a }

/-- Modelled from the spec: `TlsStreamBuilder::build_with_future` — given a
caller-supplied raw connect future, performs the handshake (against the
trust anchors and the expected peer name) once the raw stream is available,
attaches the remote address as the stream's addressing metadata, and yields
at call time a fresh Outbound Handle for the remote address. -/
def TlsStreamBuilder.build_with_future {Tcp : Type} (b : TlsStreamBuilder Tcp)
    (future : PFuture Tcp IoError Tcp) (name_server : SocketAddr)
    (dns_name : String) :
    PFuture Tcp IoError (SecuredStream Tcp) × BufDnsStreamHandle :=
  (fun env =>
    let r := future env
    match r.snd with
    | Except.error e => (r.fst, Except.error e)
    | Except.ok tcp =>
      (r.fst ++ [IoEvent.handshake dns_name],
        match env.tlsHandshake b.ca_chain dns_name tcp with
        | Except.error e => Except.error e
        | Except.ok tls =>
          Except.ok { io_stream := ⟨tls⟩, peer_addr := name_server }),
    BufDnsStreamHandle.new name_server)

/-- Modelled from the spec: `TlsStreamBuilder::build` constructs the raw
connect future from the bound provider (honouring the recorded local bind
address) and delegates to `build_with_future`. -/
def TlsStreamBuilder.build {Tcp : Type} (b : TlsStreamBuilder Tcp)
    (name_server : SocketAddr) (dns_name : String) :
    PFuture Tcp IoError (SecuredStream Tcp) × BufDnsStreamHandle :=
  b.build_with_future (b.provider.connect name_server b.bind_address)
    name_server dns_name

/-- `TlsClientStreamBuilder<P>`: the builder under analysis, a newtype over
the Secure Connection Initiator's builder (field `.0` in the source). -/
structure TlsClientStreamBuilder (Tcp : Type) where
  inner : TlsStreamBuilder Tcp
deriving DecidableEq, Repr

/-- `TlsClientStreamBuilder::new`. -/
def TlsClientStreamBuilder.new {Tcp : Type} (provider : RuntimeProvider Tcp) :
    TlsClientStreamBuilder Tcp :=
  ⟨TlsStreamBuilder.new provider⟩

/-- `TlsClientStreamBuilder::add_ca`: delegates to the inner builder. -/
def TlsClientStreamBuilder.add_ca {Tcp : Type} (b : TlsClientStreamBuilder Tcp)
    (ca : Certificate) : TlsClientStreamBuilder Tcp :=
  ⟨b.inner.add_ca ca⟩

/-- `TlsClientStreamBuilder::bind_addr`: delegates to the inner builder. -/
def TlsClientStreamBuilder.bind_addr {Tcp : Type} (b : TlsClientStreamBuilder Tcp)
    (a : SocketAddr) : TlsClientStreamBuilder Tcp :=
  ⟨b.inner.bind_addr a⟩

/-- `TlsClientStreamBuilder::build_with_future`: delegates to the inner
builder's `build_with_future`, then wraps the returned stream future with
`map_ok(TcpClientStream::from_stream)` and `map_err(ProtoError::from)`,
passing the sender handle through. -/
def TlsClientStreamBuilder.build_with_future {Tcp : Type}
    (b : TlsClientStreamBuilder Tcp) (future : PFuture Tcp IoError Tcp)
    (name_server : SocketAddr) (dns_name : String) :
    PFuture Tcp ProtoError (TlsClientStream Tcp) × BufDnsStreamHandle :=
  let r := b.inner.build_with_future future name_server dns_name
  let new_future := mapErr ProtoError.from_io (mapOk TcpClientStream.from_stream r.fst)
  (new_future, r.snd)

/-- `TlsClientStreamBuilder::build`: delegates to the inner builder's
`build`, then applies the same two transformations. -/
def TlsClientStreamBuilder.build {Tcp : Type} (b : TlsClientStreamBuilder Tcp)
    (name_server : SocketAddr) (dns_name : String) :
    PFuture Tcp ProtoError (TlsClientStream Tcp) × BufDnsStreamHandle :=
  let r := b.inner.build name_server dns_name
  let new_future := mapErr ProtoError.from_io (mapOk TcpClientStream.from_stream r.fst)
  (new_future, r.snd)

/-- The closed-form behaviour of one establishment attempt, as a function of
the configuration snapshot (trust anchors, local bind address) and the call
arguments alone. -/
def establishSpec {Tcp : Type} (anchors : List Certificate) (bind : Option SocketAddr)
    (ns : SocketAddr) (dn : String) (env : Env Tcp) :
    List IoEvent × Except ProtoError (TlsClientStream Tcp) :=
  match env.tcpConnect ns bind with
  | Except.error e => ([IoEvent.connect ns bind], Except.error (ProtoError.from_io e))
  | Except.ok tcp =>
    ([IoEvent.connect ns bind, IoEvent.handshake dn],
      match env.tlsHandshake anchors dn tcp with
      | Except.error e => Except.error (ProtoError.from_io e)
      | Except.ok tls =>
        Except.ok (TcpClientStream.from_stream { io_stream := ⟨tls⟩, peer_addr := ns }))

/-- Polling the wrapped future equals polling the inner stream future and
then applying the success and failure transformations to its resolution. -/
theorem outer_poll_with_future {Tcp : Type} (b : TlsClientStreamBuilder Tcp)
    (future : PFuture Tcp IoError Tcp) (ns : SocketAddr) (dn : String) (env : Env Tcp) :
    (b.build_with_future future ns dn).fst env =
      (((b.inner.build_with_future future ns dn).fst env).fst,
        Except.mapError ProtoError.from_io (Except.map TcpClientStream.from_stream
          ((b.inner.build_with_future future ns dn).fst env).snd)) :=
  rfl

/-- Polling the wrapped future from `build` likewise factors through the
inner future's resolution. -/
theorem outer_poll_build {Tcp : Type} (b : TlsClientStreamBuilder Tcp)
    (ns : SocketAddr) (dn : String) (env : Env Tcp) :
    (b.build ns dn).fst env =
      (((b.inner.build ns dn).fst env).fst,
        Except.mapError ProtoError.from_io (Except.map TcpClientStream.from_stream
          ((b.inner.build ns dn).fst env).snd)) :=
  rfl

/-- Any raw secured stream the inner stream future resolves to carries the
remote address it was built for as its addressing metadata. -/
theorem inner_ok_peer {Tcp : Type} (bi : TlsStreamBuilder Tcp)
    (future : PFuture Tcp IoError Tcp) (ns : SocketAddr) (dn : String)
    (env : Env Tcp) (evs : List IoEvent) (S : SecuredStream Tcp)
    (h : (bi.build_with_future future ns dn).fst env = (evs, Except.ok S)) :
    S.peer_addr = ns := by
  simp only [TlsStreamBuilder.build_with_future] at h
  rcases hf : future env with ⟨fevs, fr⟩
  rw [hf] at h
  dsimp only at h
  cases fr with
  | error e => simp at h
  | ok tcp =>
    dsimp only at h
    cases hh : env.tlsHandshake bi.ca_chain dn tcp with
    | error e =>
      rw [hh] at h
      simp at h
    | ok tls =>
      rw [hh] at h
      simp at h
      rw [← h.2]

/-- C1: on every raw secured stream `S` yielded by the inner stream future
— whether that future came from a caller-supplied raw connect operation
(`build_with_future`) or from the bound provider (`build`) — the returned
wrapped future resolves to `Ok (TcpClientStream.from_stream S)`, and the
resolved transport's remote-address metadata equals the remote socket
address that was passed in.  The two variants' guarantees are independent
implications, each over its own run. -/
theorem tls_client_build_success_wraps_stream {Tcp : Type}
    (b : TlsClientStreamBuilder Tcp) (ns : SocketAddr) (dn : String) :
    (∀ (future : PFuture Tcp IoError Tcp) (env : Env Tcp) (evs : List IoEvent)
        (S : SecuredStream Tcp),
      (b.inner.build_with_future future ns dn).fst env = (evs, Except.ok S) →
        (b.build_with_future future ns dn).fst env =
            (evs, Except.ok (TcpClientStream.from_stream S))
          ∧ (TcpClientStream.from_stream S).tcp_stream.peer_addr = ns)
    ∧ (∀ (env : Env Tcp) (evs : List IoEvent) (S : SecuredStream Tcp),
      (b.inner.build ns dn).fst env = (evs, Except.ok S) →
        (b.build ns dn).fst env = (evs, Except.ok (TcpClientStream.from_stream S))
          ∧ (TcpClientStream.from_stream S).tcp_stream.peer_addr = ns) := by
  constructor
  · intro future env evs S hw
    refine ⟨?_, inner_ok_peer b.inner future ns dn env evs S hw⟩
    rw [outer_poll_with_future, hw]
    rfl
  · intro env evs S hb
    refine ⟨?_, inner_ok_peer b.inner
      (b.inner.provider.connect ns b.inner.bind_address) ns dn env evs S hb⟩
    rw [outer_poll_build, hb]
    rfl

/-- C2: on every raw error `E` produced by the inner stream future —
whether under `build_with_future` with a caller-supplied raw connect
operation or under `build` — the returned wrapped future resolves to
`Err (ProtoError.from_io E)` with the same I/O trace (nothing retried or
swallowed), and the conversion is lossless: the original failure is
preserved as an inspectable cause and the conversion is injective.  The
two variants' guarantees are independent implications. -/
theorem tls_client_build_error_unified {Tcp : Type}
    (b : TlsClientStreamBuilder Tcp) (ns : SocketAddr) (dn : String) :
    (∀ (future : PFuture Tcp IoError Tcp) (env : Env Tcp) (evs : List IoEvent)
        (E : IoError),
      (b.inner.build_with_future future ns dn).fst env = (evs, Except.error E) →
        (b.build_with_future future ns dn).fst env =
          (evs, Except.error (ProtoError.from_io E)))
    ∧ (∀ (env : Env Tcp) (evs : List IoEvent) (E : IoError),
      (b.inner.build ns dn).fst env = (evs, Except.error E) →
        (b.build ns dn).fst env = (evs, Except.error (ProtoError.from_io E)))
    ∧ (∀ E : IoError, ProtoError.cause (ProtoError.from_io E) = E)
    ∧ Function.Injective (ProtoError.from_io) := by
  refine ⟨?_, ?_, fun E => rfl, ?_⟩
  · intro future env evs E hw
    rw [outer_poll_with_future, hw]
    rfl
  · intro env evs E hb
    rw [outer_poll_build, hb]
    rfl
  · intro x y hxy
    simpa [ProtoError.from_io] using hxy

/-- Replace the remote-address metadata of a resolved transport. -/
def setPeer {Tcp : Type} (a : SocketAddr) (t : TlsClientStream Tcp) : TlsClientStream Tcp :=
  ⟨{ t.tcp_stream with peer_addr := a }⟩

/-- Polling the future returned by `build` is fully determined by the
builder's configuration snapshot (trust anchors, local bind address), the
call arguments and the environment. -/
theorem build_poll_closed {Tcp : Type} (b : TlsClientStreamBuilder Tcp)
    (ns : SocketAddr) (dn : String) (env : Env Tcp) :
    (b.build ns dn).fst env =
      establishSpec b.inner.ca_chain b.inner.bind_address ns dn env := by
  rw [outer_poll_build]
  simp only [TlsClientStreamBuilder.build, TlsStreamBuilder.build,
    TlsStreamBuilder.build_with_future, RuntimeProvider.connect, establishSpec]
  cases hc : env.tcpConnect ns b.inner.bind_address with
  | error e => rfl
  | ok tcp =>
    dsimp only
    cases hh : env.tlsHandshake b.inner.ca_chain dn tcp with
    | error e => rfl
    | ok tls => rfl

/-- C3: `build` assembles the (future, handle) pair synchronously from the
builder's configuration alone — the handle is available immediately and is
independent of the environment — and every network I/O event (the connect,
then possibly the handshake) is emitted only when the returned future is
driven against an environment. -/
theorem tls_client_build_synchronous_no_io {Tcp : Type} :
    ∀ (b : TlsClientStreamBuilder Tcp) (ns : SocketAddr) (dn : String),
    (b.build ns dn).snd = BufDnsStreamHandle.new ns
    ∧ ∀ env : Env Tcp, ((b.build ns dn).fst env).fst =
        IoEvent.connect ns b.inner.bind_address ::
          (match env.tcpConnect ns b.inner.bind_address with
            | Except.ok _ => [IoEvent.handshake dn]
            | Except.error _ => []) := by
  intro b ns dn
  refine ⟨rfl, ?_⟩
  intro env
  rw [build_poll_closed]
  simp only [establishSpec]
  cases hc : env.tcpConnect ns b.inner.bind_address with
  | error e => rfl
  | ok tcp => rfl

/-- C4: `build` is exactly `build_with_future` applied to the raw connect
future obtained from the bound provider, so both variants apply the same
success and failure transformations; and in `build_with_future` the remote
address is used only as addressing metadata: varying it changes neither the
I/O trace nor the error outcome, and changes the success value only in its
remote-address metadata. -/
theorem tls_client_build_variants_equivalent {Tcp : Type} :
    ∀ (b : TlsClientStreamBuilder Tcp) (ns : SocketAddr) (dn : String),
    b.build ns dn =
        b.build_with_future (b.inner.provider.connect ns b.inner.bind_address) ns dn
    ∧ ∀ (future : PFuture Tcp IoError Tcp) (ns2 : SocketAddr) (env : Env Tcp),
      ((b.build_with_future future ns dn).fst env).fst =
          ((b.build_with_future future ns2 dn).fst env).fst
      ∧ ((b.build_with_future future ns dn).fst env).snd =
          Except.map (setPeer ns) (((b.build_with_future future ns2 dn).fst env).snd) := by
  intro b ns dn
  refine ⟨rfl, ?_⟩
  intro future ns2 env
  rw [outer_poll_with_future, outer_poll_with_future]
  simp only [TlsStreamBuilder.build_with_future]
  rcases hf : future env with ⟨fevs, fr⟩
  cases fr with
  | error e => exact ⟨rfl, rfl⟩
  | ok tcp =>
    dsimp only
    cases hh : env.tlsHandshake b.inner.ca_chain dn tcp with
    | error e => exact ⟨rfl, rfl⟩
    | ok tls => exact ⟨rfl, rfl⟩

/-- C5: each future instance performs exactly one underlying
connect+handshake attempt with no internal retries and resolves to exactly
one of success or error.  For `build`, each drive emits exactly one connect
event and at most one handshake event.  For `build_with_future`, each drive
passes the caller-supplied raw connect future's trace through exactly once,
unchanged, appending no connect event and at most one handshake event. -/
theorem tls_client_build_single_attempt {Tcp : Type} :
    ∀ (b : TlsClientStreamBuilder Tcp) (ns : SocketAddr) (dn : String) (env : Env Tcp),
    ((((b.build ns dn).fst env).fst.countP (fun e => e.isConnect)) = 1
      ∧ (((b.build ns dn).fst env).fst.countP (fun e => e.isHandshake)) ≤ 1
      ∧ ((∃ t, ((b.build ns dn).fst env).snd = Except.ok t)
          ∨ (∃ e, ((b.build ns dn).fst env).snd = Except.error e)))
    ∧ ∀ future : PFuture Tcp IoError Tcp,
      (∃ tail, ((b.build_with_future future ns dn).fst env).fst = (future env).fst ++ tail
          ∧ tail.countP (fun e => e.isConnect) = 0
          ∧ tail.countP (fun e => e.isHandshake) ≤ 1)
      ∧ ((∃ t, ((b.build_with_future future ns dn).fst env).snd = Except.ok t)
          ∨ (∃ e, ((b.build_with_future future ns dn).fst env).snd = Except.error e)) := by
  intro b ns dn env
  constructor
  · rw [build_poll_closed]
    simp only [establishSpec]
    cases hc : env.tcpConnect ns b.inner.bind_address with
    | error e =>
      refine ⟨rfl, ?_, Or.inr ⟨ProtoError.from_io e, rfl⟩⟩
      simp [List.countP, List.countP.go, IoEvent.isHandshake]
    | ok tcp =>
      dsimp only
      refine ⟨rfl, ?_, ?_⟩
      · simp [List.countP, List.countP.go, IoEvent.isHandshake, IoEvent.isConnect]
      · cases hh : env.tlsHandshake b.inner.ca_chain dn tcp with
        | error e => exact Or.inr ⟨ProtoError.from_io e, rfl⟩
        | ok tls =>
          exact Or.inl ⟨TcpClientStream.from_stream { io_stream := ⟨tls⟩, peer_addr := ns }, rfl⟩
  · intro future
    rw [outer_poll_with_future]
    simp only [TlsStreamBuilder.build_with_future]
    rcases hf : future env with ⟨fevs, fr⟩
    cases fr with
    | error e =>
      exact ⟨⟨[], by simp, by simp, by simp⟩, Or.inr ⟨ProtoError.from_io e, rfl⟩⟩
    | ok tcp =>
      dsimp only
      refine ⟨⟨[IoEvent.handshake dn], rfl, ?_, ?_⟩, ?_⟩
      · simp [List.countP, List.countP.go, IoEvent.isConnect]
      · simp [List.countP, List.countP.go, IoEvent.isHandshake]
      · cases hh : env.tlsHandshake b.inner.ca_chain dn tcp with
        | error e => exact Or.inr ⟨ProtoError.from_io e, rfl⟩
        | ok tls =>
          exact Or.inl ⟨TcpClientStream.from_stream { io_stream := ⟨tls⟩, peer_addr := ns }, rfl⟩

/-- C6: the outbound handle returned by `build` and `build_with_future` is
exactly the sender yielded by the inner builder, passed through unchanged. -/
theorem tls_client_handle_pass_through {Tcp : Type} :
    ∀ (b : TlsClientStreamBuilder Tcp) (future : PFuture Tcp IoError Tcp)
      (ns : SocketAddr) (dn : String),
    (b.build_with_future future ns dn).snd = (b.inner.build_with_future future ns dn).snd
    ∧ (b.build ns dn).snd = (b.inner.build ns dn).snd := by
  intro b future ns dn
  exact ⟨rfl, rfl⟩

/-- C7: `add_ca` appends exactly one trust anchor and `bind_addr` records
the local bind address, each touching no other configuration field and
having no failure mode; and the in-flight attempt produced by `build` is
fully determined by the configuration snapshot taken at the call, so no
later mutation (which yields a different builder value) can affect it. -/
theorem tls_client_config_ops_pure_and_frozen {Tcp : Type} :
    ∀ (b : TlsClientStreamBuilder Tcp) (ca : Certificate) (a ns : SocketAddr)
      (dn : String) (env : Env Tcp),
    (b.add_ca ca).inner.ca_chain = b.inner.ca_chain ++ [ca]
    ∧ (b.add_ca ca).inner.bind_address = b.inner.bind_address
    ∧ (b.add_ca ca).inner.provider = b.inner.provider
    ∧ (b.bind_addr a).inner.bind_address = some a
    ∧ (b.bind_addr a).inner.ca_chain = b.inner.ca_chain
    ∧ (b.bind_addr a).inner.provider = b.inner.provider
    ∧ (b.build ns dn).fst env =
        establishSpec b.inner.ca_chain b.inner.bind_address ns dn env
    ∧ (b.build ns dn).snd = BufDnsStreamHandle.new ns := by
  intro b ca a ns dn env
  exact ⟨rfl, rfl, rfl, rfl, rfl, rfl, build_poll_closed b ns dn env, rfl⟩

/-- C8: two independent `build` calls yield pairs whose behaviour is each a
function of that call's own builder configuration, arguments and
environment alone — there is no shared mutable state through which one
attempt could interfere with the other. -/
theorem tls_client_builds_independent {Tcp : Type} :
    ∀ (b1 b2 : TlsClientStreamBuilder Tcp) (ns1 ns2 : SocketAddr)
      (dn1 dn2 : String) (env1 env2 : Env Tcp),
    (b1.build ns1 dn1).fst env1 =
        establishSpec b1.inner.ca_chain b1.inner.bind_address ns1 dn1 env1
    ∧ (b2.build ns2 dn2).fst env2 =
        establishSpec b2.inner.ca_chain b2.inner.bind_address ns2 dn2 env2
    ∧ (b1.build ns1 dn1).snd = BufDnsStreamHandle.new ns1
    ∧ (b2.build ns2 dn2).snd = BufDnsStreamHandle.new ns2 := by
  intro b1 b2 ns1 ns2 dn1 dn2 env1 env2
  exact ⟨build_poll_closed b1 ns1 dn1 env1, build_poll_closed b2 ns2 dn2 env2, rfl, rfl⟩

/-- A concrete remote socket address used to exercise the theorems. -/
def nsW : SocketAddr := ⟨1, 853⟩

/-- A concrete expected peer name used to exercise the theorems. -/
def dnW : String := "example.com"

/-- A concrete builder over `Nat`-modelled TCP streams. -/
def builderW : TlsClientStreamBuilder Nat := TlsClientStreamBuilder.new ⟨0⟩

/-- A concrete environment in which connect and handshake both succeed. -/
def envOkW : Env Nat where
  tcpConnect := fun _ _ => Except.ok 7
  tlsHandshake := fun _ _ t => Except.ok ⟨⟨t⟩⟩

/-- A concrete caller-supplied raw connect future that yields a stream. -/
def futureOkW : PFuture Nat IoError Nat := fun _ => ([], Except.ok 7)

/-- The concrete raw secured stream those runs produce. -/
def streamW : SecuredStream Nat := { io_stream := ⟨⟨⟨7⟩⟩⟩, peer_addr := nsW }

/-- A concrete raw connect failure. -/
def errW : IoError := ⟨IoErrorKind.connectFailure, 111⟩

/-- A concrete environment in which the connect step fails. -/
def envErrW : Env Nat where
  tcpConnect := fun _ _ => Except.error errW
  tlsHandshake := fun _ _ t => Except.ok ⟨⟨t⟩⟩

/-- A concrete caller-supplied raw connect future that fails. -/
def futureErrW : PFuture Nat IoError Nat := fun _ => ([], Except.error errW)

/-- Witness for C1: both implications applied at concrete successful runs,
each hypothesis discharged by evaluation. -/
theorem tls_client_build_success_witness :
    ((builderW.build_with_future futureOkW nsW dnW).fst envOkW
        = ([IoEvent.handshake dnW], Except.ok (TcpClientStream.from_stream streamW))
      ∧ (TcpClientStream.from_stream streamW).tcp_stream.peer_addr = nsW)
    ∧ ((builderW.build nsW dnW).fst envOkW
        = ([IoEvent.connect nsW none, IoEvent.handshake dnW],
            Except.ok (TcpClientStream.from_stream streamW))
      ∧ (TcpClientStream.from_stream streamW).tcp_stream.peer_addr = nsW) :=
  ⟨(tls_client_build_success_wraps_stream builderW nsW dnW).1 futureOkW envOkW
      [IoEvent.handshake dnW] streamW rfl,
    (tls_client_build_success_wraps_stream builderW nsW dnW).2 envOkW
      [IoEvent.connect nsW none, IoEvent.handshake dnW] streamW rfl⟩

/-- Witness for C2: both implications applied at concrete failing runs,
each hypothesis discharged by evaluation. -/
theorem tls_client_build_error_witness :
    ((builderW.build_with_future futureErrW nsW dnW).fst envErrW
        = ([], Except.error (ProtoError.from_io errW)))
    ∧ ((builderW.build nsW dnW).fst envErrW
        = ([IoEvent.connect nsW none], Except.error (ProtoError.from_io errW)))
    ∧ ProtoError.cause (ProtoError.from_io errW) = errW :=
  ⟨(tls_client_build_error_unified builderW nsW dnW).1 futureErrW envErrW [] errW rfl,
    (tls_client_build_error_unified builderW nsW dnW).2.1 envErrW
      [IoEvent.connect nsW none] errW rfl,
    (tls_client_build_error_unified builderW nsW dnW).2.2.1 errW⟩

end HickoryTls
